import Mathlib

/-!
Verification of the zotero-mcp repository's core logic against its
natural-language specification.

The embedding below translates, function by function, the Python sources
`src/zotero_mcp/client.py`, `src/zotero_mcp/__init__.py` and the
`server.py` snapshot (both copies carry identical logic for the functions
treated here).  Python dictionaries with optional fields become structures
of `Option` fields; Python truthiness, `dict.get` defaults, `str.strip`,
`textwrap.dedent` and `list.sort(key=..., reverse=True)` (a stable
descending sort) are modelled explicitly.  External collaborator calls
(`zot.item`, `zot.children`, `zot.fulltext_item`, `zot.add_parameters`)
are passed in as explicit result values: an `Except` models a call that
may raise, an `Option` models a result that may be `None`.
-/

namespace ZoteroMcp

/-! ## Definitions: the embedded program and its fixtures -/

/-- Python `str.join` with a separator: `sep.join(xs)`. -/
def joinSep (sep : String) : List String → String
  | [] => ""
  | [s] => s
  | s :: ss => s ++ sep ++ joinSep sep ss

/-- Newline join `"\n".join(xs)`, used by `format_item` and `search_items`. -/
def joinNL (xs : List String) : String := joinSep "\n" xs

/-- Python truthiness of an optional string: `None` and `""` are falsy. -/
def pyTruthy : Option String → Bool
  | some s => s ≠ ""
  | none => false

/-- The whitespace characters stripped by Python's `str.strip()`
(restricted to the ASCII whitespace range; the data handled by this
program never contains the exotic Unicode space characters). -/
def isPySpace (c : Char) : Bool :=
  c = ' ' || c = '\t' || c = '\n' || c = '\r' || c = '\x0b' || c = '\x0c'

/-- Python `str.strip()` on a character list: drop leading and trailing whitespace. -/
def pyStripChars (l : List Char) : List Char :=
  ((l.dropWhile isPySpace).reverse.dropWhile isPySpace).reverse

/-- Python `str.strip()`. -/
def pyStrip (s : String) : String := ⟨pyStripChars s.data⟩

/-- Characters counted as indentation by `textwrap.dedent`
(its regexes use the class `[ \t]`). -/
def isIndentChar (c : Char) : Bool := c = ' ' || c = '\t'

/-- Split a character list at newline characters, like Python
`text.split('\n')`: always at least one (possibly empty) line. -/
def splitLines : List Char → List (List Char)
  | [] => [[]]
  | c :: cs =>
    if c = '\n' then [] :: splitLines cs
    else
      match splitLines cs with
      | [] => [[c]]
      | l :: ls => (c :: l) :: ls

/-- Inverse of `splitLines`: interleave the lines with newlines. -/
def joinLines : List (List Char) → List Char
  | [] => []
  | [l] => l
  | l :: ls => l ++ '\n' :: joinLines ls

/-- A line consisting only of spaces/tabs and nonempty: matched by
`textwrap.dedent`'s `^[ \t]+$` whitespace-only-line regex. -/
def isBlankNE (l : List Char) : Bool := !l.isEmpty && l.all isIndentChar

/-- Leading whitespace of a line, per `dedent`'s `(^[ \t]*)(?:[^ \t\n])`. -/
def indentOf (l : List Char) : List Char := l.takeWhile isIndentChar

/-- Longest common prefix of two character lists (the margin computation
of `textwrap.dedent`). -/
def commonPre : List Char → List Char → List Char
  | a :: as, b :: bs => if a = b then a :: commonPre as bs else []
  | _, _ => []

/-- Remove `pre` from the front of `l` when it is a prefix (the per-line
margin removal `re.sub('(?m)^' + margin, '', text)`). -/
def dropPre (pre l : List Char) : List Char :=
  if pre.isPrefixOf l then l.drop pre.length else l

/-- The body of `textwrap.dedent` on a character list: empty the whitespace-only
lines, compute the common indentation margin of the remaining nonempty
lines, and strip it from every line. -/
def dedentChars (l : List Char) : List Char :=
  let ls := (splitLines l).map (fun x => if isBlankNE x then [] else x)
  let margin :=
    match ls.filter (fun x => !x.isEmpty) with
    | [] => []
    | i :: is => is.foldl (fun m x => commonPre m (indentOf x)) (indentOf i)
  joinLines (ls.map (fun x => dropPre margin x))

/-- Python `textwrap.dedent`. -/
def dedent (s : String) : String := ⟨dedentChars s.data⟩

/-- A creator record: `{firstName, lastName}` or `{name}`; the code tests
key presence. -/
structure CreatorRecord where
  firstName : Option String
  lastName : Option String
  name : Option String
deriving DecidableEq

/-- A tag record `{tag: string}`; `format_item` indexes `tag["tag"]`
directly, so the field is required. -/
structure TagRecord where
  tag : String
deriving DecidableEq

/-- The nested `data` mapping of an item. -/
structure ItemData where
  key : Option String
  itemType : Option String
  title : Option String
  date : Option String
  creators : List CreatorRecord
  abstractNote : Option String
  tags : List TagRecord
  url : Option String
  DOI : Option String
  contentType : Option String
  md5 : Option String
deriving DecidableEq

/-- The `meta` mapping: the only field read is `numChildren`. -/
structure MetaData where
  numChildren : Option Nat
deriving DecidableEq

/-- An item record.  `format_item` indexes `item["data"]` directly
(raising on absence), so `data` is required; children examined by the
selector read `child.get("data", {})`, and since every `ItemData` field
is optional an absent `data` is observationally the all-`none` record. -/
structure Item where
  key : Option String
  data : ItemData
  meta : Option MetaData
deriving DecidableEq

/-- The relevant environment variables (`os.getenv` results). -/
structure Env where
  ZOTERO_LIBRARY_ID : Option String
  ZOTERO_LIBRARY_TYPE : Option String
  ZOTERO_API_KEY : Option String
  ZOTERO_LOCAL : Option String
deriving DecidableEq

/-- The argument tuple passed to the `zotero.Zotero` constructor. -/
structure ZoteroClient where
  library_id : Option String
  library_type : String
  api_key : Option String
  localFlag : Bool
deriving DecidableEq

/-- Python `str.lower()`, character by character (ASCII case mapping; the
configuration strings compared against are ASCII). -/
def pyLower (s : String) : String := ⟨s.data.map Char.toLower⟩

/-- The test `os.getenv("ZOTERO_LOCAL", "").lower() in ["true", "yes", "1"]`. -/
def localEnvTruthy (v : Option String) : Bool :=
  let s := pyLower (v.getD "")
  s = "true" || s = "yes" || s = "1"

/-- Function `get_zotero_client` from `client.py` (the `server.py` copy is
identical): read the environment, substitute library id `"0"` in local
mode, and the guard `if not local or all([library_id, api_key])` raising
`ValueError`. -/
def get_zotero_client (env : Env) : Except String ZoteroClient :=
  let library_id := env.ZOTERO_LIBRARY_ID
  let library_type := env.ZOTERO_LIBRARY_TYPE.getD "user"
  let api_key := env.ZOTERO_API_KEY
  let localFlag := localEnvTruthy env.ZOTERO_LOCAL
  let library_id :=
    if localFlag && !pyTruthy library_id then some "0" else library_id
  if !localFlag || (pyTruthy library_id && pyTruthy api_key) then
    Except.error
      "Missing required environment variables. Please set ZOTERO_LIBRARY_ID and ZOTERO_API_KEY"
  else
    Except.ok
      { library_id := library_id
        library_type := library_type
        api_key := api_key
        localFlag := localFlag }

/-- The pydantic model `AttachmentDetails(key: str, content_type: str)`. -/
structure AttachmentDetails where
  key : String
  content_type : String
deriving DecidableEq

/-- Pydantic validation on construction: a field annotated `str` rejects
`None`, so `AttachmentDetails(key=k, content_type=c)` raises a
`ValidationError` when either argument is `None`. -/
def mkAttachmentDetails (key contentType : Option String) :
    Except String AttachmentDetails :=
  match key, contentType with
  | some k, some c => Except.ok { key := k, content_type := c }
  | _, _ => Except.error "pydantic ValidationError: str fields reject None"

/-- Stable insertion of `x` into `l`, placing `x` before the first
element `y` with `le x y`. -/
def insSorted (le : α → α → Bool) (x : α) : List α → List α
  | [] => [x]
  | y :: ys => if le x y then x :: y :: ys else y :: insSorted le x ys

/-- Stable insertion sort.  With `le a b := !(keyOf a < keyOf b)` this is
exactly Python's stable `list.sort(key=keyOf, reverse=True)`: keys
descending, ties kept in original order. -/
def isort (le : α → α → Bool) : List α → List α
  | [] => []
  | x :: xs => insSorted le x (isort le xs)

/-- A bucket entry `(key, content_type, md5-as-size-proxy)` as appended
by the children loop. -/
abbrev AttTriple := Option String × Option String × String

/-- The `(key, content_type, md5-as-size-proxy)` triple appended to a
bucket for one attachment child. -/
def childTriple (cd : ItemData) : AttTriple :=
  (cd.key, cd.contentType, cd.md5.getD "")

/-- Lexicographic code-point order on character lists: exactly Python's
string comparison (and the order of Lean's `String.lt`). -/
def chListLt : List Char → List Char → Bool
  | [], [] => false
  | [], _ :: _ => true
  | _ :: _, [] => false
  | a :: as, b :: bs =>
    if a.toNat < b.toNat then true
    else if b.toNat < a.toNat then false
    else chListLt as bs

/-- Python's `<` on strings. -/
def pyStrLt (a b : String) : Bool := chListLt a.data b.data

/-- The comparison used for `bucket.sort(key=lambda x: x[2], reverse=True)`:
descending in the third (md5) component, stable on ties. -/
def md5Desc (a b : AttTriple) : Bool :=
  !pyStrLt a.2.2 b.2.2

/-- One iteration of the children loop of `get_attachment_details`: an
attachment-typed child is appended to the pdf, html or other bucket
according to its `contentType`; any other child leaves the buckets
unchanged. -/
def bucketStep (acc : List AttTriple × List AttTriple × List AttTriple)
    (child : Item) : List AttTriple × List AttTriple × List AttTriple :=
  let cd := child.data
  if cd.itemType = some "attachment" then
    if cd.contentType = some "application/pdf" then
      (acc.1 ++ [childTriple cd], acc.2.1, acc.2.2)
    else if cd.contentType = some "text/html" then
      (acc.1, acc.2.1 ++ [childTriple cd], acc.2.2)
    else
      (acc.1, acc.2.1, acc.2.2 ++ [childTriple cd])
  else acc

/-- Sorting a bucket descending by md5 and building the result from its
first entry, as the source does for the first non-empty bucket: a
pydantic validation error here is raised inside the `try`, swallowed by
`except Exception: pass`, and becomes the fall-through `return None`. -/
def pickFromBucket (b : List AttTriple) : Except String (Option AttachmentDetails) :=
  match isort md5Desc b with
  | [] => Except.ok none
  | t :: _ =>
    match mkAttachmentDetails t.1 t.2.1 with
    | Except.ok a => Except.ok (some a)
    | Except.error _ => Except.ok none

/-- Function `get_attachment_details` from `client.py`.  The children fetch
`zot.children(...)` is passed in as its outcome (`Except.error` = the
call raised).  The direct-attachment branch sits outside the `try`, so
its pydantic validation error propagates (`Except.error`); everything in
the `try` that raises — including a validation error while building the
result from a bucket — is swallowed by `except Exception: pass` and
falls through to `return None`. -/
def get_attachment_details (childrenResult : Except Unit (List Item))
    (item : Item) : Except String (Option AttachmentDetails) :=
  let data := item.data
  if data.itemType = some "attachment" then
    (mkAttachmentDetails data.key data.contentType).map some
  else
    match childrenResult with
    | Except.error _ => Except.ok none
    | Except.ok children =>
      -- the single pass appending each attachment child to one bucket
      let buckets := children.foldl bucketStep ([], [], [])
      if !buckets.1.isEmpty then pickFromBucket buckets.1
      else if !buckets.2.1.isEmpty then pickFromBucket buckets.2.1
      else if !buckets.2.2.isEmpty then pickFromBucket buckets.2.2
      else Except.ok none

/-- One creator's rendering inside the loop of `format_item`:
`"{lastName}, {firstName}"` when both keys are present, else the `name`
key, else the creator contributes nothing. -/
def creatorStr (c : CreatorRecord) : Option String :=
  match c.firstName, c.lastName with
  | some f, some l => some (l ++ ", " ++ f)
  | _, _ => c.name

/-- The read `item.get("meta", {}).get("numChildren", 0)`. -/
def numChildrenOf (item : Item) : Nat :=
  match item.meta with
  | some m => m.numChildren.getD 0
  | none => 0

/-- Function `format_item` from `__init__.py` (the `server.py` copy is identical):
three always-present header lines with fallback defaults, then
conditionally appended sections, joined with `"\n"`.  The walrus
truthiness tests (`if abstract := data.get(...)`: skip on `None` or the
empty string) are `pyTruthy`; in a taken branch the appended value is the
present field, written `getD ""` (equal to the field under `pyTruthy`). -/
def format_item (item : Item) : String :=
  let data := item.data
  let formatted :=
    ["Title: " ++ data.title.getD "Untitled",
     "Type: " ++ data.itemType.getD "unknown",
     "Date: " ++ data.date.getD "No date"]
  let creators := data.creators.filterMap creatorStr
  let formatted :=
    if !creators.isEmpty then formatted ++ ["Authors: " ++ joinSep "; " creators]
    else formatted
  let formatted :=
    if pyTruthy data.abstractNote then
      formatted ++ ["\nAbstract:\n" ++ data.abstractNote.getD ""]
    else formatted
  let formatted :=
    if !data.tags.isEmpty then
      formatted ++ ["\nTags: " ++ joinSep ", " (data.tags.map TagRecord.tag)]
    else formatted
  let formatted :=
    if pyTruthy data.url then formatted ++ ["URL: " ++ data.url.getD ""]
    else formatted
  let formatted :=
    if pyTruthy data.DOI then formatted ++ ["DOI: " ++ data.DOI.getD ""]
    else formatted
  let notes := numChildrenOf item
  let formatted :=
    if notes ≠ 0 then formatted ++ ["Number of notes: " ++ toString notes]
    else formatted
  joinNL formatted

/-- The body computed from a `zot.fulltext_item` result dictionary:
`full_text_data["content"]` when the dict is truthy and has a
`"content"` key, else the extraction-not-possible placeholder.  The
dictionary is an association list of its entries; `None` and the empty
dict are both falsy. -/
def fulltextBodyValue (ftd : Option (List (String × String))) : String :=
  match ftd with
  | some entries =>
    if entries.isEmpty then "[Attachment available but text extraction not possible]"
    else
      match entries.lookup "content" with
      | some c => c
      | none => "[Attachment available but text extraction not possible]"
  | none => "[Attachment available but text extraction not possible]"

/-- The step of `get_item_fulltext` that turns the selected attachment
into the text body: with an attachment, call `zot.fulltext_item` (whose
raising is the `Except.error` case, caught by the handler); with none,
the no-suitable-attachment placeholder. -/
def fulltextStep (att : Option AttachmentDetails)
    (ftFetch : Except String (Option (List (String × String)))) :
    Except String String :=
  match att with
  | some _ => Except.map fulltextBodyValue ftFetch
  | none => Except.ok "[No suitable attachment found for full text extraction]"

/-- The expression `attachment.key if attachment else ""` in the report template. -/
def attKeyStr (att : Option AttachmentDetails) : String :=
  match att with
  | some a => a.key
  | none => ""

/-- The indented f-string template of `get_item_fulltext`, followed by
`.strip()` and `textwrap.dedent` exactly as in the source.  The template
lines carry the source file's 12-space indentation. -/
def fulltextTemplate (metadataBlock attKey body : String) : String :=
  dedent (pyStrip
    ("\n            " ++ metadataBlock ++
     "\n\n            Attachment Item Key: " ++ attKey ++
     "\n\n            Full Text:\n" ++ body))

/-- Function `get_item_fulltext` from `__init__.py` (the `server.py` copy is
identical).  `itemFetch` is the outcome of `zot.item(item_key)`
(`Except.error` = raised, `Except.ok none` = falsy result), and
`ftFetch` the outcome of `zot.fulltext_item` on the selected attachment's
key.  Everything inside the `try` that raises becomes the
`"Error retrieving item full text: ..."` string. -/
def get_item_fulltext (item_key : String)
    (itemFetch : Except String (Option Item))
    (childrenResult : Except Unit (List Item))
    (ftFetch : Except String (Option (List (String × String)))) : String :=
  match itemFetch with
  | Except.error e => "Error retrieving item full text: " ++ e
  | Except.ok none => "No item found with key: " ++ item_key
  | Except.ok (some item) =>
    match get_attachment_details childrenResult item with
    | Except.error e => "Error retrieving item full text: " ++ e
    | Except.ok att =>
      match fulltextStep att ftFetch with
      | Except.error e => "Error retrieving item full text: " ++ e
      | Except.ok item_text =>
        fulltextTemplate (format_item item) (attKeyStr att) item_text

/-- The keyword arguments the handler passes to `zot.add_parameters`.
The source passes exactly `q=query, qmode=qmode, limit=limit`; the
`tagParam` field records whether a `tag` keyword is among them. -/
structure SearchParams where
  q : String
  qmode : Option String
  limit : Option Int
  tagParam : Option String
deriving DecidableEq

/-- Function `search_items` from `__init__.py` (the `server.py` copy is
identical), returning both the parameters passed to the collaborator and
the produced report.  `results` is the collaborator's `zot.items()`
value. -/
def search_items (results : List Item) (query : String)
    (qmode : Option String) (tagArg : Option String) (limit : Option Int) :
    SearchParams × String :=
  let params : SearchParams :=
    { q := query, qmode := qmode, limit := limit, tagParam := none }
  if results.isEmpty then (params, "No items found matching your query.")
  else
    let formatted_results := results.map (fun item =>
      let data := item.data
      let title := data.title.getD "Untitled"
      let item_type := data.itemType.getD "unknown"
      let date := data.date.getD ""
      let item_key := item.key.getD ""
      let abstract := data.abstractNote.getD ""
      let creators := data.creators.filterMap creatorStr
      let creator_str := if creators.isEmpty then "No authors" else joinSep "; " creators
      joinNL ["- " ++ title ++ " (" ++ item_type ++ ")",
              "  Item Key: " ++ item_key,
              "  Date: " ++ date,
              "  Authors: " ++ creator_str,
              "  Abstract: " ++ abstract ++ "\n"])
    (params, joinNL formatted_results)

/-- An item `data` object with every optional field absent. -/
def emptyData : ItemData :=
  { key := none, itemType := none, title := none, date := none,
    creators := [], abstractNote := none, tags := [], url := none,
    DOI := none, contentType := none, md5 := none }

/-- The `data` object of a direct attachment with no `contentType`. -/
def attachmentNoCTData : ItemData :=
  { emptyData with key := some "K", itemType := some "attachment" }

/-- A direct attachment item whose `contentType` is absent. -/
def attachmentNoCTItem : Item :=
  { key := some "K", data := attachmentNoCTData, meta := none }

/-- The `data` object of a direct PDF attachment. -/
def attachmentPdfData : ItemData :=
  { emptyData with key := some "K", itemType := some "attachment",
                   contentType := some "application/pdf", md5 := some "123456789" }

/-- A direct attachment item with a PDF content type. -/
def attachmentPdfItem : Item :=
  { key := some "K", data := attachmentPdfData, meta := none }

/-- The `data` object of a plain journal article. -/
def journalData : ItemData :=
  { emptyData with key := some "P", itemType := some "journalArticle" }

/-- A plain journal-article item (not an attachment). -/
def journalItem : Item :=
  { key := some "P", data := journalData, meta := none }

/-- The `data` object of an attachment child with no `contentType`. -/
def childNoCTData : ItemData :=
  { emptyData with key := some "C1", itemType := some "attachment",
                   md5 := some "m" }

/-- An attachment child whose `contentType` is absent (md5 `"m"`). -/
def childNoCT : Item :=
  { key := none, data := childNoCTData, meta := none }

/-- The `data` object of a PNG attachment child. -/
def childPngData : ItemData :=
  { emptyData with key := some "C2", itemType := some "attachment",
                   contentType := some "image/png", md5 := some "a" }

/-- An attachment child with a non-pdf/html content type (md5 `"a"`). -/
def childPng : Item :=
  { key := none, data := childPngData, meta := none }

/-- The `data` object of a second no-`contentType` attachment child whose
md5 string (`"z"`) is the largest of its bucket. -/
def childNoCTBigData : ItemData :=
  { emptyData with key := some "C3", itemType := some "attachment",
                   md5 := some "z" }

/-- A second attachment child whose `contentType` is absent, carrying the
largest md5 string (`"z"`) of its bucket. -/
def childNoCTBig : Item :=
  { key := none, data := childNoCTBigData, meta := none }

/-- Modelled from the spec (§4.1 steps 3–4): the candidate triples of the
children whose `data.itemType` is `"attachment"`, in order. -/
def attachTriples (children : List Item) : List AttTriple :=
  (children.filter (fun c => c.data.itemType = some "attachment")).map
    (fun c => childTriple c.data)

/-- Modelled from the spec: the `application/pdf` priority bucket. -/
def pdfBucket (children : List Item) : List AttTriple :=
  (attachTriples children).filter (fun t => t.2.1 = some "application/pdf")

/-- Modelled from the spec: the `text/html` priority bucket. -/
def htmlBucket (children : List Item) : List AttTriple :=
  (attachTriples children).filter (fun t => t.2.1 = some "text/html")

/-- Modelled from the spec: the everything-else bucket (including absent
content type). -/
def otherBucket (children : List Item) : List AttTriple :=
  (attachTriples children).filter
    (fun t => !(t.2.1 = some "application/pdf") && !(t.2.1 = some "text/html"))

/-- Modelled from the spec (§4.1): pick the first non-empty bucket in
priority order pdf > html > other, sort it by md5 descending (stable),
and take its first element; `none` when no attachment child exists. -/
def selectAttachmentSpec (children : List Item) : Option AttTriple :=
  if !(pdfBucket children).isEmpty then (isort md5Desc (pdfBucket children)).head?
  else if !(htmlBucket children).isEmpty then (isort md5Desc (htmlBucket children)).head?
  else (isort md5Desc (otherBucket children)).head?

/-- The optional `Authors:` section of `format_item`. -/
def authorsOpt (item : Item) : List String :=
  if !(item.data.creators.filterMap creatorStr).isEmpty then
    ["Authors: " ++ joinSep "; " (item.data.creators.filterMap creatorStr)]
  else []

/-- The optional `Abstract:` section of `format_item`. -/
def abstractOpt (item : Item) : List String :=
  if pyTruthy item.data.abstractNote then
    ["\nAbstract:\n" ++ item.data.abstractNote.getD ""]
  else []

/-- The optional `Tags:` section of `format_item`. -/
def tagsOpt (item : Item) : List String :=
  if !item.data.tags.isEmpty then
    ["\nTags: " ++ joinSep ", " (item.data.tags.map TagRecord.tag)]
  else []

/-- The optional `URL:` line of `format_item`. -/
def urlOpt (item : Item) : List String :=
  if pyTruthy item.data.url then ["URL: " ++ item.data.url.getD ""] else []

/-- The optional `DOI:` line of `format_item`. -/
def doiOpt (item : Item) : List String :=
  if pyTruthy item.data.DOI then ["DOI: " ++ item.data.DOI.getD ""] else []

/-- The optional `Number of notes:` line of `format_item`. -/
def notesOpt (item : Item) : List String :=
  if numChildrenOf item ≠ 0 then
    ["Number of notes: " ++ toString (numChildrenOf item)]
  else []

/-- Replace an item's `meta` mapping. -/
def setMeta (item : Item) (m : Option MetaData) : Item :=
  { item with meta := m }

/-- Replace an item's creator list. -/
def setCreators (item : Item) (cs : List CreatorRecord) : Item :=
  { item with data := { item.data with creators := cs } }

/-- A creator record that contributes an entry to the Authors line:
either both `firstName` and `lastName` keys, or a `name` key. -/
def renderableCreator (c : CreatorRecord) : Bool :=
  (c.firstName.isSome && c.lastName.isSome) || c.name.isSome

/-- An item whose only creator has just a `firstName` key (neither
renderable shape). -/
def badCreatorData : ItemData :=
  { emptyData with creators := [{ firstName := some "J", lastName := none, name := none }] }

/-- An item whose only creator is non-renderable. -/
def badCreatorItem : Item :=
  { key := none, data := badCreatorData, meta := none }

/-- The first character exists and is not Python whitespace. -/
def headNonSpace (l : List Char) : Bool :=
  match l with
  | [] => false
  | c :: _ => !isPySpace c

/-- The last character exists and is not Python whitespace. -/
def lastNonSpace (l : List Char) : Bool := headNonSpace l.reverse

/-- No line of the string is whitespace-only (and nonempty): under this
condition `textwrap.dedent` leaves flush-left text alone. -/
def noBlankLines (s : String) : Bool :=
  (splitLines s.data).all (fun L => !isBlankNE L)

/-- The composition produced by the full-text report template, with the
12-space indentation that `textwrap.dedent` does not remove (the
metadata block's lines are flush-left, so the common margin is empty). -/
def fulltextReportShape (item : Item) (att : Option AttachmentDetails)
    (body : String) : String :=
  format_item item ++ "\n\n            Attachment Item Key: " ++
    attKeyStr att ++ "\n\n            Full Text:\n" ++ body

/-- Modelled from the claim's words: metadata block, blank line,
`Attachment Item Key:` line, blank line, `Full Text:` line, body — with
no indentation on any line. -/
def claimedReportShape (metadataBlock attKey body : String) : String :=
  metadataBlock ++ "\n\nAttachment Item Key: " ++ attKey ++
    "\n\nFull Text:\n" ++ body

/-! ## Theorems -/

/-- C1: the claim says `get_zotero_client` raises exactly when required
credentials are missing in non-local mode.  The code's guard is
`if not local or all([library_id, api_key])`, which raises in every
non-local run — including the run below where both credentials are set —
while its own error message speaks of *missing* variables.  The second
conjunct shows the local-mode half of the claim does hold: with no
library id, `"0"` is substituted and construction succeeds with no
API key. -/
theorem C1_raises_despite_credentials :
    get_zotero_client
        { ZOTERO_LIBRARY_ID := some "12345", ZOTERO_LIBRARY_TYPE := none,
          ZOTERO_API_KEY := some "abc123", ZOTERO_LOCAL := none } =
      Except.error
        "Missing required environment variables. Please set ZOTERO_LIBRARY_ID and ZOTERO_API_KEY" ∧
    get_zotero_client
        { ZOTERO_LIBRARY_ID := none, ZOTERO_LIBRARY_TYPE := none,
          ZOTERO_API_KEY := none, ZOTERO_LOCAL := some "true" } =
      Except.ok
        { library_id := some "0", library_type := "user", api_key := none,
          localFlag := true } :=
  ⟨rfl, rfl⟩

/-- C2 counterexample: for a direct attachment item whose `contentType`
is absent, the claim demands the pair be returned with an empty/unknown
content type; instead the pydantic constructor rejects `None` and the
error propagates out of the selector (this branch sits outside the
`try`). -/
theorem C2_counterexample :
    get_attachment_details (Except.ok []) attachmentNoCTItem =
      Except.error "pydantic ValidationError: str fields reject None" :=
  rfl

/-- C2 (amended): for an item whose own `itemType` is `"attachment"`,
the selector's result never depends on the children fetch (no child
lookup is performed); when both `key` and `contentType` are present the
pair is returned immediately; when `contentType` is absent the result is
the propagated validation error, not an empty/unknown content type. -/
theorem C2_direct_attachment (cr cr' : Except Unit (List Item)) (item : Item)
    (h : item.data.itemType = some "attachment") :
    get_attachment_details cr item = get_attachment_details cr' item ∧
    (∀ k ct, item.data.key = some k → item.data.contentType = some ct →
      get_attachment_details cr item =
        Except.ok (some { key := k, content_type := ct })) ∧
    (item.data.contentType = none →
      get_attachment_details cr item =
        Except.error "pydantic ValidationError: str fields reject None") := by
  refine ⟨?_, ?_, ?_⟩
  · simp [get_attachment_details, h]
  · intro k ct hk hct
    simp [get_attachment_details, h, hk, hct, mkAttachmentDetails, Except.map]
  · intro hct
    cases hk : item.data.key <;>
      simp [get_attachment_details, h, hk, hct, mkAttachmentDetails, Except.map]

/-- C2 witness: the amended theorem applied to a concrete PDF attachment
item, with both fetch outcomes instantiated. -/
theorem C2_witness :
    attachmentPdfItem.data.itemType = some "attachment" ∧
    get_attachment_details (Except.ok []) attachmentPdfItem =
      Except.ok (some { key := "K", content_type := "application/pdf" }) :=
  ⟨by rfl,
    (C2_direct_attachment (Except.ok []) (Except.error ()) attachmentPdfItem
        (by rfl)).2.1 "K" "application/pdf" (by rfl) (by rfl)⟩

/-- C3: the claim says a lone attachment child missing `contentType` is
bucketed into "other" and still returned as the selected attachment.
Evaluating the code on exactly that input: the child is indeed bucketed
into "other", but building the result from it passes `None` to the
pydantic `str` field `content_type`; the `ValidationError` is swallowed
by the blanket `except` and the selector returns `None` ("none found")
instead of the child. -/
theorem C3_lone_child_without_contentType_dropped :
    childNoCT.data.itemType = some "attachment" ∧
    get_attachment_details (Except.ok [childNoCT]) journalItem =
      Except.ok none :=
  ⟨by rfl, by rfl⟩

/-- C5: for every non-attachment item, a failed children fetch (the
collaborator call raised) makes the selector return "none found"
(`None`) instead of propagating the error. -/
theorem C5_children_failure_degrades (item : Item)
    (h : item.data.itemType ≠ some "attachment") :
    get_attachment_details (Except.error ()) item = Except.ok none := by
  simp [get_attachment_details, h]

/-- C5 witness: the theorem applied to the concrete journal item. -/
theorem C5_witness :
    journalItem.data.itemType ≠ some "attachment" ∧
    get_attachment_details (Except.error ()) journalItem = Except.ok none :=
  ⟨by decide, C5_children_failure_degrades journalItem (by decide)⟩

/-- C7: every search invocation passes exactly
`{q := query, qmode := qmode, limit := limit}` to the collaborator — the
`tag` argument is never among the forwarded parameters — and an empty
result set produces exactly `"No items found matching your query."`. -/
theorem C7_search_params_and_empty (results : List Item) (query : String)
    (qmode tagArg : Option String) (limit : Option Int) :
    (search_items results query qmode tagArg limit).1 =
      { q := query, qmode := qmode, limit := limit, tagParam := none } ∧
    (search_items [] query qmode tagArg limit).2 =
      "No items found matching your query." := by
  constructor
  · cases results <;> simp [search_items]
  · rfl

/-- The one-pass bucket fold of the source equals the three filtered
buckets of the specification, for any starting accumulator. -/
theorem foldl_bucketStep (cs : List Item) (a b c : List AttTriple) :
    cs.foldl bucketStep (a, b, c) =
      (a ++ pdfBucket cs, b ++ htmlBucket cs, c ++ otherBucket cs) := by
  induction cs generalizing a b c with
  | nil => simp [pdfBucket, htmlBucket, otherBucket, attachTriples]
  | cons x xs ih =>
    by_cases hA : x.data.itemType = some "attachment"
    · by_cases hP : x.data.contentType = some "application/pdf"
      · simp [bucketStep, hA, hP, ih, pdfBucket, htmlBucket, otherBucket,
              attachTriples, List.filter_cons, childTriple, List.append_assoc]
      · by_cases hH : x.data.contentType = some "text/html"
        · simp [bucketStep, hA, hP, hH, ih, pdfBucket, htmlBucket, otherBucket,
                attachTriples, List.filter_cons, childTriple, List.append_assoc]
        · simp [bucketStep, hA, hP, hH, ih, pdfBucket, htmlBucket, otherBucket,
                attachTriples, List.filter_cons, childTriple, List.append_assoc]
    · simp [bucketStep, hA, ih, pdfBucket, htmlBucket, otherBucket,
            attachTriples, List.filter_cons]

/-- Stable insertion never produces the empty list. -/
theorem insSorted_ne_nil (le : α → α → Bool) (x : α) (l : List α) :
    insSorted le x l ≠ [] := by
  cases l with
  | nil => simp [insSorted]
  | cons y ys =>
    simp only [insSorted]
    split <;> simp

/-- Sorting a non-empty list with `isort` is non-empty. -/
theorem isort_ne_nil (le : α → α → Bool) (x : α) (l : List α) :
    isort le (x :: l) ≠ [] := by
  simpa [isort] using insSorted_ne_nil le x (isort le l)

/-- Characterisation of `pickFromBucket` by the head of the sorted bucket. -/
theorem pickFromBucket_eq_head (b : List AttTriple) :
    pickFromBucket b =
      Except.ok (match (isort md5Desc b).head? with
        | none => none
        | some t =>
          match mkAttachmentDetails t.1 t.2.1 with
          | Except.ok a => some a
          | Except.error _ => none) := by
  unfold pickFromBucket
  cases hi : isort md5Desc b with
  | nil => simp
  | cons t ts => cases hm : mkAttachmentDetails t.1 t.2.1 <;> simp [hm]

/-- C4 (amended): for every non-attachment item, selection considers
only the attachment-typed children, partitions them into the pdf > html >
other buckets, sorts the chosen bucket by md5 string descending (stable),
and takes the first element of the first non-empty bucket — but the
element is returned only when its key and contentType are present; when
either is absent the validation error is swallowed and the result is
`none`.  Zero attachment children give `none` without error. -/
theorem C4_selection (item : Item) (children : List Item)
    (h : item.data.itemType ≠ some "attachment") :
    get_attachment_details (Except.ok children) item =
      Except.ok (match selectAttachmentSpec children with
        | none => none
        | some t =>
          match mkAttachmentDetails t.1 t.2.1 with
          | Except.ok a => some a
          | Except.error _ => none) := by
  have hb := foldl_bucketStep children [] [] []
  simp only [List.nil_append] at hb
  simp only [get_attachment_details, if_neg h, hb, selectAttachmentSpec]
  by_cases hp : (pdfBucket children).isEmpty
  · by_cases hh : (htmlBucket children).isEmpty
    · by_cases ho : (otherBucket children).isEmpty
      · have hoe : otherBucket children = [] := by
          cases hoo : otherBucket children with
          | nil => rfl
          | cons y ys => rw [hoo] at ho; simp at ho
        simp [hp, hh, ho, hoe, isort]
      · simp [hp, hh, ho, pickFromBucket_eq_head]
    · simp [hp, hh, pickFromBucket_eq_head]
  · simp [hp, pickFromBucket_eq_head]

/-- C4 counterexample: with children `[png (md5 "a"), no-contentType
(md5 "z")]` of a non-attachment item, both land in the "other" bucket
and the descending md5 sort puts the no-contentType child (key `"C3"`)
first, so the claim requires that child to be returned; the code instead
returns `none` — the first element's `None` content type fails pydantic
validation and the blanket `except` swallows the error. -/
theorem C4_counterexample :
    selectAttachmentSpec [childPng, childNoCTBig] =
      some (some "C3", none, "z") ∧
    get_attachment_details (Except.ok [childPng, childNoCTBig]) journalItem =
      Except.ok none := by
  constructor
  · rfl
  · rfl

/-- C4 witness: the amended theorem applied to a concrete item with a
single PNG child (first non-empty bucket is "other", element valid). -/
theorem C4_witness :
    journalItem.data.itemType ≠ some "attachment" ∧
    get_attachment_details (Except.ok [childPng]) journalItem =
      Except.ok (some { key := "C2", content_type := "image/png" }) := by
  refine ⟨by decide, ?_⟩
  exact (C4_selection journalItem [childPng] (by decide)).trans (by rfl)

/-- A conditional append to the running list equals appending the
conditional singleton. -/
theorem ite_append_section (F l : List String) (c : Prop) [Decidable c] :
    (if c then F ++ l else F) = F ++ (if c then l else []) := by
  split <;> simp

/-- Decomposition: `format_item` is the three header lines followed by the optional
sections in their fixed order. -/
theorem format_item_decomp (item : Item) :
    format_item item =
      joinNL (["Title: " ++ item.data.title.getD "Untitled",
               "Type: " ++ item.data.itemType.getD "unknown",
               "Date: " ++ item.data.date.getD "No date"] ++
              authorsOpt item ++ abstractOpt item ++ tagsOpt item ++
              urlOpt item ++ doiOpt item ++ notesOpt item) := by
  simp only [format_item, authorsOpt, abstractOpt, tagsOpt, urlOpt, doiOpt,
             notesOpt]
  split_ifs <;> simp [List.append_assoc]

/-- Joining with `"\n"` after appending one more element. -/
theorem joinNL_append_singleton (L : List String) (x : String) (h : L ≠ []) :
    joinNL (L ++ [x]) = joinNL L ++ "\n" ++ x := by
  induction L with
  | nil => exact absurd rfl h
  | cons a as ih =>
    cases as with
    | nil => simp [joinNL, joinSep]
    | cons b bs =>
      have hr := ih (by simp)
      have e1 : joinNL ((a :: b :: bs) ++ [x]) = a ++ "\n" ++ joinNL ((b :: bs) ++ [x]) := rfl
      have e2 : joinNL (a :: b :: bs) = a ++ "\n" ++ joinNL (b :: bs) := rfl
      rw [e1, e2, hr]
      simp [String.append_assoc]

/-- The sections of `format_item` other than the notes line depend only
on the item's `data`, so changing `meta` leaves them unchanged; this is
the common part of the C8 equalities. -/
theorem format_item_setMeta (item : Item) (m : Option MetaData) :
    format_item (setMeta item m) =
      joinNL (["Title: " ++ item.data.title.getD "Untitled",
               "Type: " ++ item.data.itemType.getD "unknown",
               "Date: " ++ item.data.date.getD "No date"] ++
              authorsOpt item ++ abstractOpt item ++ tagsOpt item ++
              urlOpt item ++ doiOpt item ++ notesOpt (setMeta item m)) := by
  have h := format_item_decomp (setMeta item m)
  simpa [setMeta, authorsOpt, abstractOpt, tagsOpt, urlOpt, doiOpt] using h

/-- C8: `meta.numChildren` equal to `0`, absent, and `meta` absent give
identical `format_item` output (the truthiness test skips the line in
all three cases), and a positive count appends exactly the line
`Number of notes: <count>` to the otherwise-identical output. -/
theorem C8_numChildren (item : Item) (n : Nat) :
    (format_item (setMeta item (some { numChildren := some 0 })) =
       format_item (setMeta item none) ∧
     format_item (setMeta item (some { numChildren := none })) =
       format_item (setMeta item none)) ∧
    (0 < n →
      format_item (setMeta item (some { numChildren := some n })) =
        format_item (setMeta item none) ++ "\nNumber of notes: " ++ toString n) := by
  have h2 : notesOpt (setMeta item none) = [] := by
    simp [notesOpt, numChildrenOf, setMeta]
  refine ⟨⟨?_, ?_⟩, ?_⟩
  · rw [format_item_setMeta, format_item_setMeta]
    have h1 : notesOpt (setMeta item (some { numChildren := some 0 })) = [] := by
      simp [notesOpt, numChildrenOf, setMeta]
    rw [h1, h2]
  · rw [format_item_setMeta, format_item_setMeta]
    have h1 : notesOpt (setMeta item (some { numChildren := none })) = [] := by
      simp [notesOpt, numChildrenOf, setMeta]
    rw [h1, h2]
  · intro hn
    rw [format_item_setMeta, format_item_setMeta]
    have h1 : notesOpt (setMeta item (some { numChildren := some n })) =
        ["Number of notes: " ++ toString n] := by
      simp [notesOpt, numChildrenOf, setMeta, Nat.pos_iff_ne_zero.mp hn]
    rw [h1, h2, List.append_nil, joinNL_append_singleton _ _ (by simp)]
    rw [String.append_assoc, String.append_assoc]
    rfl

/-- C8 witness: the positive-count half applied at `n = 2` on the
concrete journal item. -/
theorem C8_witness :
    (0 : Nat) < 2 ∧
    format_item (setMeta journalItem (some { numChildren := some 2 })) =
      format_item (setMeta journalItem none) ++ "\nNumber of notes: " ++
        toString 2 :=
  ⟨by decide, (C8_numChildren journalItem 2).2 (by decide)⟩

/-- C9: `format_item` is a total function of the input record (the
definition below is a pure, computable Lean function, so two runs on one
record are definitionally identical and no failure case exists for
well-formed-but-sparse records), and its output always consists of the
three header lines `Title`/`Type`/`Date` — with fallbacks `"Untitled"`,
`"unknown"`, `"No date"` — followed by a sublist of the optional
sections in the fixed order Authors, Abstract, Tags, URL, DOI,
Number of notes. -/
theorem C9_field_order (item : Item) :
    ∃ opts : List String,
      format_item item =
        joinNL (["Title: " ++ item.data.title.getD "Untitled",
                 "Type: " ++ item.data.itemType.getD "unknown",
                 "Date: " ++ item.data.date.getD "No date"] ++ opts) ∧
      List.Sublist opts
        ["Authors: " ++ joinSep "; " (item.data.creators.filterMap creatorStr),
         "\nAbstract:\n" ++ item.data.abstractNote.getD "",
         "\nTags: " ++ joinSep ", " (item.data.tags.map TagRecord.tag),
         "URL: " ++ item.data.url.getD "",
         "DOI: " ++ item.data.DOI.getD "",
         "Number of notes: " ++ toString (numChildrenOf item)] := by
  refine ⟨authorsOpt item ++ abstractOpt item ++ tagsOpt item ++ urlOpt item ++
          doiOpt item ++ notesOpt item, format_item_decomp item, ?_⟩
  have h1 : List.Sublist (authorsOpt item)
      ["Authors: " ++ joinSep "; " (item.data.creators.filterMap creatorStr)] := by
    unfold authorsOpt; split <;> simp
  have h2 : List.Sublist (abstractOpt item)
      ["\nAbstract:\n" ++ item.data.abstractNote.getD ""] := by
    unfold abstractOpt; split <;> simp
  have h3 : List.Sublist (tagsOpt item)
      ["\nTags: " ++ joinSep ", " (item.data.tags.map TagRecord.tag)] := by
    unfold tagsOpt; split <;> simp
  have h4 : List.Sublist (urlOpt item) ["URL: " ++ item.data.url.getD ""] := by
    unfold urlOpt; split <;> simp
  have h5 : List.Sublist (doiOpt item) ["DOI: " ++ item.data.DOI.getD ""] := by
    unfold doiOpt; split <;> simp
  have h6 : List.Sublist (notesOpt item)
      ["Number of notes: " ++ toString (numChildrenOf item)] := by
    unfold notesOpt; split <;> simp
  simpa using ((((h1.append h2).append h3).append h4).append h5).append h6

/-- A creator with neither shape renders to nothing. -/
theorem creatorStr_none_of_not_renderable (c : CreatorRecord)
    (h : renderableCreator c = false) : creatorStr c = none := by
  rcases c with ⟨f, l, n⟩
  cases f <;> cases l <;> cases n <;> simp_all [creatorStr, renderableCreator]

/-- Dropping the non-renderable creators does not change the rendered
creator entries. -/
theorem filterMap_creatorStr_filter (l : List CreatorRecord) :
    (l.filter renderableCreator).filterMap creatorStr =
      l.filterMap creatorStr := by
  induction l with
  | nil => rfl
  | cons c cs ih =>
    cases hr : renderableCreator c with
    | false =>
      have hn := creatorStr_none_of_not_renderable c hr
      simp [List.filter_cons, hr, List.filterMap_cons, hn, ih]
    | true =>
      cases hc : creatorStr c <;>
        simp [List.filter_cons, hr, List.filterMap_cons, hc, ih]

/-- C10: creators with neither a first/last name pair nor a display name
are silently skipped by `format_item` (filtering them out changes
nothing), and when every creator is of that shape the output equals the
output for an empty creators list (no Authors line). -/
theorem C10_unrenderable_skipped (item : Item) :
    format_item (setCreators item (item.data.creators.filter renderableCreator)) =
      format_item item ∧
    ((∀ c ∈ item.data.creators, renderableCreator c = false) →
      format_item item = format_item (setCreators item [])) := by
  constructor
  · simp [format_item, setCreators, filterMap_creatorStr_filter, numChildrenOf]
  · intro h
    have hl : item.data.creators.filterMap creatorStr = [] := by
      rw [List.filterMap_eq_nil_iff]
      intro c hc
      exact creatorStr_none_of_not_renderable c (h c hc)
    simp [format_item, setCreators, hl, numChildrenOf]

/-- C10 witness: the all-non-renderable half applied to the concrete
item above. -/
theorem C10_witness :
    (∀ c ∈ badCreatorItem.data.creators, renderableCreator c = false) ∧
    format_item badCreatorItem = format_item (setCreators badCreatorItem []) :=
  ⟨by decide, (C10_unrenderable_skipped badCreatorItem).2 (by decide)⟩

/-- Appending strings concatenates their character data. -/
theorem data_append (s t : String) : (s ++ t).data = s.data ++ t.data := by
  cases s; cases t; rfl

/-- List `dropWhile` skips past a prefix on which the predicate holds. -/
theorem dropWhile_append_all (p : Char → Bool) (l1 l2 : List Char)
    (h : l1.all p = true) : (l1 ++ l2).dropWhile p = l2.dropWhile p := by
  induction l1 with
  | nil => rfl
  | cons c cs ih =>
    simp only [List.all_cons, Bool.and_eq_true] at h
    simp [List.dropWhile_cons, h.1, ih h.2]

/-- Predicate `headNonSpace` only looks at the first part of an append. -/
theorem headNonSpace_append (a b : List Char) (h : headNonSpace a = true) :
    headNonSpace (a ++ b) = true := by
  cases a with
  | nil => simp [headNonSpace] at h
  | cons c cs => simpa [headNonSpace] using h

/-- Predicate `lastNonSpace` only looks at the second part of an append. -/
theorem lastNonSpace_append (a b : List Char) (h : lastNonSpace b = true) :
    lastNonSpace (a ++ b) = true := by
  unfold lastNonSpace at h ⊢
  rw [List.reverse_append]
  exact headNonSpace_append _ _ h

/-- Stripping whitespace followed by a cleanly-delimited payload yields
the payload. -/
theorem pyStripChars_clean (pre X : List Char) (hpre : pre.all isPySpace = true)
    (hh : headNonSpace X = true) (hl : lastNonSpace X = true) :
    pyStripChars (pre ++ X) = X := by
  unfold pyStripChars
  rw [dropWhile_append_all _ _ _ hpre]
  cases X with
  | nil => simp [headNonSpace] at hh
  | cons c cs =>
    simp only [headNonSpace, Bool.not_eq_true'] at hh
    rw [List.dropWhile_cons, if_neg (by simp [hh])]
    unfold lastNonSpace at hl
    cases hr : (c :: cs).reverse with
    | nil => simp at hr
    | cons d ds =>
      rw [hr] at hl
      simp only [headNonSpace, Bool.not_eq_true'] at hl
      rw [List.dropWhile_cons]
      rw [if_neg (by simp [hl])]
      rw [← hr]
      exact List.reverse_reverse _

/-- Splitting into lines always returns at least one line. -/
theorem splitLines_ne_nil (l : List Char) : splitLines l ≠ [] := by
  cases l with
  | nil => simp [splitLines]
  | cons c cs =>
    simp only [splitLines]
    split
    · simp
    · cases h : splitLines cs <;> simp

/-- Joining the split lines reproduces the text. -/
theorem joinLines_splitLines (l : List Char) : joinLines (splitLines l) = l := by
  induction l with
  | nil => rfl
  | cons c cs ih =>
    by_cases hc : c = '\n'
    · subst hc
      simp only [splitLines, if_pos rfl]
      cases h : splitLines cs with
      | nil => exact absurd h (splitLines_ne_nil cs)
      | cons x xs =>
        rw [h] at ih
        simp [joinLines, ih]
    · simp only [splitLines, if_neg hc]
      cases h : splitLines cs with
      | nil => exact absurd h (splitLines_ne_nil cs)
      | cons x xs =>
        rw [h] at ih
        cases xs with
        | nil => simp_all [joinLines]
        | cons y ys =>
          simp only [joinLines] at ih ⊢
          rw [← ih]
          simp

/-- Emptying whitespace-only lines changes nothing when there are none. -/
theorem map_blank_subst_id (ls : List (List Char))
    (h : ∀ L ∈ ls, isBlankNE L = false) :
    ls.map (fun x => if isBlankNE x then [] else x) = ls := by
  induction ls with
  | nil => rfl
  | cons a as ih =>
    simp only [List.map_cons, h a (by simp), if_false,
               ih (fun L hL => h L (by simp [hL])), Bool.false_eq_true]

/-- The common prefix with the empty list is empty. -/
theorem commonPre_nil (l : List Char) : commonPre [] l = [] := by
  cases l <;> rfl

/-- Folding the margin computation from an empty margin stays empty. -/
theorem foldl_commonPre_nil (ls : List (List Char)) :
    ls.foldl (fun m x => commonPre m (indentOf x)) [] = [] := by
  induction ls with
  | nil => rfl
  | cons a as ih => simpa [commonPre_nil] using ih

/-- Removing an empty margin changes nothing. -/
theorem dropPre_nil (l : List Char) : dropPre [] l = l := by
  simp [dropPre, List.isPrefixOf]

/-- Dedent leaves text unchanged when its first character is
non-whitespace (so the computed margin is empty) and no line is
whitespace-only. -/
theorem dedentChars_eq_self (c : Char) (cs : List Char)
    (hc : isPySpace c = false)
    (hclean : ∀ L ∈ splitLines (c :: cs), isBlankNE L = false) :
    dedentChars (c :: cs) = c :: cs := by
  have hcn : ¬(c = '\n') := by
    intro h; subst h; simp [isPySpace] at hc
  have hci : isIndentChar c = false := by
    rcases hi : isIndentChar c with _ | _
    · rfl
    · exfalso
      have : isPySpace c = true := by
        simp only [isIndentChar, Bool.or_eq_true] at hi
        rcases hi with h | h <;> simp [isPySpace, h]
      simp [this] at hc
  unfold dedentChars
  rw [map_blank_subst_id _ hclean]
  obtain ⟨l, ls, hs⟩ : ∃ l ls, splitLines (c :: cs) = (c :: l) :: ls := by
    simp only [splitLines, if_neg hcn]
    cases h : splitLines cs with
    | nil => exact absurd h (splitLines_ne_nil cs)
    | cons x xs => exact ⟨x, xs, rfl⟩
  have hfilter : ((c :: l) :: ls).filter (fun x => !x.isEmpty) =
      (c :: l) :: ls.filter (fun x => !x.isEmpty) := by
    simp [List.filter_cons]
  have hind : indentOf (c :: l) = [] := by
    simp [indentOf, List.takeWhile_cons, hci]
  simp only [hs, hfilter, hind, foldl_commonPre_nil, dropPre_nil, List.map_id']
  rw [← hs, joinLines_splitLines]

/-- The report of `format_item` always begins with the (non-whitespace)
character `T` of its `Title: ` line. -/
theorem format_item_headNonSpace (item : Item) :
    headNonSpace (format_item item).data = true := by
  have e : format_item item =
      ("Title: " ++ item.data.title.getD "Untitled") ++ "\n" ++
        joinSep "\n" (("Type: " ++ item.data.itemType.getD "unknown") ::
          ("Date: " ++ item.data.date.getD "No date") ::
          (authorsOpt item ++ abstractOpt item ++ tagsOpt item ++
           urlOpt item ++ doiOpt item ++ notesOpt item)) :=
    (format_item_decomp item).trans rfl
  rw [e, data_append, data_append, data_append]
  exact headNonSpace_append _ _ (headNonSpace_append _ _
    (headNonSpace_append _ _ (by rfl)))

/-- On clean inputs — metadata block flush-left (always true of
`format_item`), body ending in a non-whitespace character, no
whitespace-only lines anywhere — the strip-then-dedent template reduces
to plain concatenation, 12-space indentation included. -/
theorem fulltextTemplate_clean (M K T : String)
    (hM : headNonSpace M.data = true)
    (hT : lastNonSpace T.data = true)
    (hclean : noBlankLines
      (M ++ "\n\n            Attachment Item Key: " ++ K ++
        "\n\n            Full Text:\n" ++ T) = true) :
    fulltextTemplate M K T =
      M ++ "\n\n            Attachment Item Key: " ++ K ++
        "\n\n            Full Text:\n" ++ T := by
  have hdata : (("\n            " ++ M ++
      "\n\n            Attachment Item Key: " ++ K ++
      "\n\n            Full Text:\n" ++ T)).data =
      ("\n            ").data ++
        (M ++ "\n\n            Attachment Item Key: " ++ K ++
          "\n\n            Full Text:\n" ++ T).data := by
    simp only [data_append, List.append_assoc]
  have hhead : headNonSpace
      (M ++ "\n\n            Attachment Item Key: " ++ K ++
        "\n\n            Full Text:\n" ++ T).data = true := by
    simp only [data_append, List.append_assoc]
    exact headNonSpace_append _ _ hM
  have hlast : lastNonSpace
      (M ++ "\n\n            Attachment Item Key: " ++ K ++
        "\n\n            Full Text:\n" ++ T).data = true := by
    simp only [data_append]
    exact lastNonSpace_append _ _ hT
  have hstrip : pyStripChars (("\n            " ++ M ++
      "\n\n            Attachment Item Key: " ++ K ++
      "\n\n            Full Text:\n" ++ T)).data =
      (M ++ "\n\n            Attachment Item Key: " ++ K ++
        "\n\n            Full Text:\n" ++ T).data := by
    rw [hdata]
    exact pyStripChars_clean _ _ (by rfl) hhead hlast
  show dedent (pyStrip _) = _
  unfold dedent pyStrip
  dsimp only
  rw [hstrip]
  obtain ⟨c, cs, hX, hc⟩ : ∃ c cs,
      (M ++ "\n\n            Attachment Item Key: " ++ K ++
        "\n\n            Full Text:\n" ++ T).data = c :: cs ∧
      isPySpace c = false := by
    cases hM' : (M ++ "\n\n            Attachment Item Key: " ++ K ++
        "\n\n            Full Text:\n" ++ T).data with
    | nil => rw [hM'] at hhead; simp [headNonSpace] at hhead
    | cons c cs =>
      rw [hM'] at hhead
      simp only [headNonSpace, Bool.not_eq_true'] at hhead
      exact ⟨c, cs, rfl, hhead⟩
  have hclean' : ∀ L ∈ splitLines (c :: cs), isBlankNE L = false := by
    unfold noBlankLines at hclean
    rw [hX] at hclean
    intro L hL
    have := List.all_eq_true.mp hclean L hL
    simpa using this
  rw [hX, dedentChars_eq_self c cs hc hclean', ← hX]

/-- C6 counterexample: on a found direct-PDF-attachment item with
successfully fetched content, the produced report is not the claimed
composition — `textwrap.dedent` finds an empty common margin (the
metadata lines are flush-left) and leaves the template's 12-space
indentation on the `Attachment Item Key:` and `Full Text:` lines. -/
theorem C6_counterexample :
    get_item_fulltext "K" (Except.ok (some attachmentPdfItem)) (Except.ok [])
        (Except.ok (some [("content", "Sample text")])) ≠
      claimedReportShape (format_item attachmentPdfItem) "K" "Sample text" := by
  decide

/-- C6 (amended): for every found item, when selection yields `att` and
the body step yields text `t` (fetched content, or the
extraction-not-possible placeholder, or — when no attachment was
selected — the no-suitable-attachment placeholder), and the composed
report has no whitespace-only lines and `t` ends in a non-whitespace
character, the report is exactly: metadata block, blank line,
`"            Attachment Item Key: <key or empty>"`, blank line,
`"            Full Text:"`, newline, body — i.e. the claimed composition
except that the two label lines keep 12 spaces of indentation. -/
theorem C6_report_composition (item_key : String) (item : Item)
    (cr : Except Unit (List Item))
    (ft : Except String (Option (List (String × String))))
    (att : Option AttachmentDetails) (t : String)
    (hsel : get_attachment_details cr item = Except.ok att)
    (hstep : fulltextStep att ft = Except.ok t)
    (hT : lastNonSpace t.data = true)
    (hclean : noBlankLines (fulltextReportShape item att t) = true) :
    get_item_fulltext item_key (Except.ok (some item)) cr ft =
      fulltextReportShape item att t := by
  unfold get_item_fulltext
  simp only [hsel, hstep]
  unfold fulltextReportShape at hclean ⊢
  exact fulltextTemplate_clean _ _ _ (format_item_headNonSpace item) hT hclean

/-- C6 witness: the amended theorem applied to the concrete direct PDF
attachment with fetched content `"Sample text"`. -/
theorem C6_witness :
    get_attachment_details (Except.ok []) attachmentPdfItem =
      Except.ok (some { key := "K", content_type := "application/pdf" }) ∧
    fulltextStep (some { key := "K", content_type := "application/pdf" })
        (Except.ok (some [("content", "Sample text")])) =
      Except.ok "Sample text" ∧
    get_item_fulltext "K" (Except.ok (some attachmentPdfItem)) (Except.ok [])
        (Except.ok (some [("content", "Sample text")])) =
      fulltextReportShape attachmentPdfItem
        (some { key := "K", content_type := "application/pdf" }) "Sample text" :=
  ⟨by rfl, by rfl,
    C6_report_composition "K" attachmentPdfItem (Except.ok [])
      (Except.ok (some [("content", "Sample text")]))
      (some { key := "K", content_type := "application/pdf" }) "Sample text"
      (by rfl) (by rfl) (by decide) (by decide)⟩

end ZoteroMcp
